import Mathlib

/-!
Shallow embedding of the Swift remote-reflection type-reference builder
(`include/swift/Reflection/TypeRefBuilder.h`): the closed `TypeRef` node
model, the factory layer with its partial constructors, the append-only
metadata registry, and the resolver queries, together with theorems about
their behaviour.
-/

namespace SwiftReflection

/-- External `FunctionTypeFlags` value, modelled as a raw natural number;
the builder only stores it, never inspects it. -/
abbrev FunctionTypeFlags := Nat

/-- The closed set of structural type nodes (the `TypeRef` class hierarchy
consumed by `TypeRefBuilder.h`; the hierarchy itself lives in `TypeRef.h`,
its variant list is fixed by the factory entry points in the header and by
the spec's data model). -/
inductive TypeRef where
  | builtin (mangledName : String)
  | nominal (mangledName : String) (parent : Option TypeRef)
  | boundGeneric (mangledName : String) (args : List TypeRef) (parent : Option TypeRef)
  | tuple (elements : List TypeRef) (isVariadic : Bool)
  | function (arguments : List TypeRef) (result : TypeRef) (flags : FunctionTypeFlags)
  | protocol (moduleName : String) (protocolName : String)
  | protocolComposition (protocols : List TypeRef)
  | existentialMetatype (inst : TypeRef)
  | metatype (inst : TypeRef)
  | genericTypeParameter (depth : Nat) (index : Nat)
  | dependentMember (member : String) (base : TypeRef) (protocolTR : TypeRef)
  | unownedStorage (base : TypeRef)
  | unmanagedStorage (base : TypeRef)
  | weakStorage (base : TypeRef)
  | objcClassPlaceholder
  | foreignClassPlaceholder
  | opaqueType

/-- The `isa<ProtocolTypeRef>` test used by the partial constructors
(`TypeRefBuilder.h:162,186`). -/
def TypeRef.isProtocolTypeRef : TypeRef → Bool
  | .protocol _ _ => true
  | _ => false

/-- A field entry of a `FieldDescriptor` (external record format): a field
name together with its decoded type.  The source stores a mangled type name
and decodes it through the external demangler; the model holds the decoded
`TypeRef` directly, treating the external decoder as already applied. -/
structure FieldRecord where
  fieldName : String
  fieldType : TypeRef

/-- A `FieldDescriptor` (external record format, `Records.h`): the owning
nominal type's mangled name and its fields in declaration order. -/
structure FieldDescriptor where
  mangledTypeName : String
  fields : List FieldRecord

/-- One member entry of an `AssociatedTypeDescriptor`: an associated-type
member name together with its decoded substitute type. -/
structure AssociatedTypeRecord where
  name : String
  substitutedType : TypeRef

/-- An `AssociatedTypeDescriptor` (external record format): a conforming
type + protocol pair and the substitutions for its associated types. -/
structure AssociatedTypeDescriptor where
  conformingTypeName : String
  protocolName : String
  members : List AssociatedTypeRecord

/-- A `BuiltinTypeDescriptor` (external record format): mangled name plus
size, alignment, stride, and the extra-inhabitants flag. -/
structure BuiltinTypeDescriptor where
  mangledTypeName : String
  size : Nat
  alignment : Nat
  stride : Nat
  hasExtraInhabitants : Bool

/-- One image's metadata bundle (`ReflectionInfo`, TypeRefBuilder.h:73-80).
The three descriptor sections are modelled as the lists of records their
byte ranges parse to; the raw typeref and reflection-string blobs stay
opaque byte lists. -/
structure ReflectionInfo where
  imageName : String
  fieldmd : List FieldDescriptor
  assocty : List AssociatedTypeDescriptor
  builtin : List BuiltinTypeDescriptor
  typeref : List Nat
  reflstr : List Nat

/-- The builder's mutable state (`TypeRefBuilder`, TypeRefBuilder.h:88):
the arena pool `TypeRefPool` owning every allocated node, and the
registration-ordered registry `ReflectionInfos`. -/
structure TypeRefBuilder where
  typeRefPool : List TypeRef := []
  reflectionInfos : List ReflectionInfo := []

/-- Identity of a vended node: either an arena slot (one per allocation)
or one of the three process-wide singletons, which live outside the
arena. -/
inductive NodeId where
  | arena (idx : Nat)
  | objcSingleton
  | foreignSingleton
  | opaqueSingleton

/-- `makeTypeRef` (TypeRefBuilder.h:103-108): heap-allocates a node, hands
ownership to the pool, and returns a reference to the fresh slot. -/
def makeTypeRef (s : TypeRefBuilder) (t : TypeRef) : TypeRefBuilder × NodeId :=
  ({ s with typeRefPool := s.typeRefPool ++ [t] }, .arena s.typeRefPool.length)

/-- `BuiltNominalTypeDecl = Optional<std::string>` (TypeRefBuilder.h:91). -/
abbrev BuiltNominalTypeDecl := Option String

/-- `createNominalTypeDecl(std::string &&)` (TypeRefBuilder.h:122-124):
wraps an already-mangled string verbatim into the optional handle. -/
def createNominalTypeDecl (mangledName : String) : BuiltNominalTypeDecl :=
  some mangledName

/-- `createBuiltinType` (TypeRefBuilder.h:114-116). -/
def createBuiltinType (mangledName : String) : TypeRef :=
  .builtin mangledName

/-- `createNominalType` (TypeRefBuilder.h:126-130): dereferences the
optional handle with `*mangledName`, unconditionally and with no check.
The `Option` result models the partiality of that dereference: `none` is
the undefined behaviour of dereferencing an absent handle, not a signalled
error — the source has no check and no error path. -/
def createNominalType (mangledName : BuiltNominalTypeDecl)
    (parent : Option TypeRef) : Option TypeRef :=
  mangledName.map fun n => TypeRef.nominal n parent

/-- `createBoundGenericType` (TypeRefBuilder.h:132-137): same unchecked
`*mangledName` dereference as `createNominalType`, modelled the same
way. -/
def createBoundGenericType (mangledName : BuiltNominalTypeDecl)
    (args : List TypeRef) (parent : Option TypeRef) : Option TypeRef :=
  mangledName.map fun n => TypeRef.boundGeneric n args parent

/-- `createTupleType` (TypeRefBuilder.h:139-143). -/
def createTupleType (elements : List TypeRef) (isVariadic : Bool) : TypeRef :=
  .tuple elements isVariadic

/-- `createFunctionType` (TypeRefBuilder.h:145-152): the source forwards
only `args`, `result` and `flags` to `FunctionTypeRef::create` and drops
`inOutArgs` on the floor (its own `FIXME: don't ignore inOutArgs`). -/
def createFunctionType (args : List TypeRef) (inOutArgs : List Bool)
    (result : TypeRef) (flags : FunctionTypeFlags) : TypeRef :=
  .function args result flags

/-- `createProtocolType` (TypeRefBuilder.h:154-157). -/
def createProtocolType (moduleName protocolName : String) : TypeRef :=
  .protocol moduleName protocolName

/-- `createProtocolCompositionType` (TypeRefBuilder.h:159-166): walks the
member list and returns `nullptr` (here `none`) as soon as a member is not
a `ProtocolTypeRef`; otherwise builds the composition from the full input
list. -/
def createProtocolCompositionType (protocols : List TypeRef) : Option TypeRef :=
  if protocols.all (fun p => p.isProtocolTypeRef) then
    some (.protocolComposition protocols)
  else
    none

/-- `createExistentialMetatypeType` (TypeRefBuilder.h:168-171). -/
def createExistentialMetatypeType (inst : TypeRef) : TypeRef :=
  .existentialMetatype inst

/-- `createMetatypeType` (TypeRefBuilder.h:173-175). -/
def createMetatypeType (inst : TypeRef) : TypeRef :=
  .metatype inst

/-- `createGenericTypeParameterType` (TypeRefBuilder.h:177-180). -/
def createGenericTypeParameterType (depth index : Nat) : TypeRef :=
  .genericTypeParameter depth index

/-- `createDependentMemberType` (TypeRefBuilder.h:182-189): returns
`nullptr` (here `none`) when the third argument is not a
`ProtocolTypeRef`, and builds the node otherwise. -/
def createDependentMemberType (member : String) (base : TypeRef)
    (protocol : TypeRef) : Option TypeRef :=
  if protocol.isProtocolTypeRef then
    some (.dependentMember member base protocol)
  else
    none

/-- `createUnownedStorageType` (TypeRefBuilder.h:191-193). -/
def createUnownedStorageType (base : TypeRef) : TypeRef :=
  .unownedStorage base

/-- `createUnmanagedStorageType` (TypeRefBuilder.h:195-198). -/
def createUnmanagedStorageType (base : TypeRef) : TypeRef :=
  .unmanagedStorage base

/-- `createWeakStorageType` (TypeRefBuilder.h:200-202). -/
def createWeakStorageType (base : TypeRef) : TypeRef :=
  .weakStorage base

/-- Modelled from the spec: `ObjCClassTypeRef::getUnnamed()` (called from
TypeRefBuilder.h:204-206; its body lives in `TypeRef.h`/`TypeRef.cpp`,
not under `src/`).  Per the spec the unnamed placeholder is a process-wide
singleton, referentially stable and not arena-allocated, so the accessor
leaves the builder state untouched and always returns the same identity. -/
def getUnnamedObjCClassType (s : TypeRefBuilder) : TypeRefBuilder × NodeId :=
  (s, .objcSingleton)

/-- Modelled from the spec: `ForeignClassTypeRef::getUnnamed()` (called
from TypeRefBuilder.h:208-210; body not under `src/`).  Same process-wide
singleton discipline as the ObjC placeholder. -/
def getUnnamedForeignClassType (s : TypeRefBuilder) : TypeRefBuilder × NodeId :=
  (s, .foreignSingleton)

/-- Modelled from the spec: `OpaqueTypeRef::get()` (called from
TypeRefBuilder.h:212-214; body not under `src/`).  Same process-wide
singleton discipline. -/
def getOpaqueType (s : TypeRefBuilder) : TypeRefBuilder × NodeId :=
  (s, .opaqueSingleton)

/-- `addReflectionInfo` (TypeRefBuilder.h:220-222): `push_back` of the
bundle onto the registration-ordered registry. -/
def addReflectionInfo (s : TypeRefBuilder) (I : ReflectionInfo) : TypeRefBuilder :=
  { s with reflectionInfos := s.reflectionInfos ++ [I] }

/-- Modelled from the spec: generic-parameter substitution performed by
`getFieldTypeRefs` (declared TypeRefBuilder.h:243-244, body in
`TypeRefBuilder.cpp`, not under `src/`).  A substitution assigns a
`TypeRef` to a (depth, index) coordinate; parameters it does not cover are
left in place. -/
def GenericSubst := Nat → Nat → Option TypeRef

mutual

/-- Modelled from the spec: replace every `GenericTypeParameter(depth,
index)` occurring in a decoded field type by the substitution's assignment
for that coordinate, recursing through all structural positions. -/
def substTR (σ : GenericSubst) : TypeRef → TypeRef
  | .builtin n => .builtin n
  | .nominal n p => .nominal n (substTROpt σ p)
  | .boundGeneric n args p => .boundGeneric n (substTRList σ args) (substTROpt σ p)
  | .tuple elems v => .tuple (substTRList σ elems) v
  | .function args res flags => .function (substTRList σ args) (substTR σ res) flags
  | .protocol m p => .protocol m p
  | .protocolComposition ps => .protocolComposition (substTRList σ ps)
  | .existentialMetatype i => .existentialMetatype (substTR σ i)
  | .metatype i => .metatype (substTR σ i)
  | .genericTypeParameter d i =>
    match σ d i with
    | some t => t
    | none => .genericTypeParameter d i
  | .dependentMember m b p => .dependentMember m (substTR σ b) (substTR σ p)
  | .unownedStorage b => .unownedStorage (substTR σ b)
  | .unmanagedStorage b => .unmanagedStorage (substTR σ b)
  | .weakStorage b => .weakStorage (substTR σ b)
  | .objcClassPlaceholder => .objcClassPlaceholder
  | .foreignClassPlaceholder => .foreignClassPlaceholder
  | .opaqueType => .opaqueType

/-- Substitution mapped over a list of nodes. -/
def substTRList (σ : GenericSubst) : List TypeRef → List TypeRef
  | [] => []
  | t :: ts => substTR σ t :: substTRList σ ts

/-- Substitution mapped over an optional node. -/
def substTROpt (σ : GenericSubst) : Option TypeRef → Option TypeRef
  | none => none
  | some t => some (substTR σ t)

end

/-- Modelled from the spec: the substitution established by a
`BoundGeneric`'s argument list — depth/index addressing into the bound
generic context established by the node itself, so depth 0 selects the
argument at that index in `args` and other depths are left unbound. -/
def boundGenericSubst (args : List TypeRef) : GenericSubst :=
  fun d i => if d = 0 then args.get? i else none

/-- Modelled from the spec: the substitution a query type reference
establishes — a `BoundGeneric` binds its argument list, every other
variant binds nothing. -/
def genericSubstFor : TypeRef → GenericSubst
  | .boundGeneric _ args _ => boundGenericSubst args
  | _ => fun _ _ => none

/-- Modelled from the spec: deriving the nominal mangled name from a query
type reference, defined for the `Nominal` and `BoundGeneric` variants
only — any other variant is a usage error, reported as `none`. -/
def getMangledName? : TypeRef → Option String
  | .nominal n _ => some n
  | .boundGeneric n _ _ => some n
  | _ => none

/-- Modelled from the spec: `getFieldTypeInfo` (declared
TypeRefBuilder.h:240, body in `TypeRefBuilder.cpp`, not under `src/`).
Derives the query's nominal mangled name, then scans every registered
field section in registration order and returns the first
`FieldDescriptor` whose owning mangled name matches, or `none` for a
lookup miss or a usage error. -/
def getFieldTypeInfo (s : TypeRefBuilder) (TR : TypeRef) : Option FieldDescriptor :=
  match getMangledName? TR with
  | none => none
  | some n =>
    (s.reflectionInfos.flatMap fun info => info.fieldmd).find?
      fun fd => fd.mangledTypeName == n

/-- Modelled from the spec: `getFieldTypeRefs` (declared
TypeRefBuilder.h:243-244, body in `TypeRefBuilder.cpp`, not under
`src/`).  For each field entry of the descriptor, in declaration order,
pair the field name with its decoded type after substituting the query's
bound generic arguments for the generic parameters occurring in it. -/
def getFieldTypeRefs (TR : TypeRef) (FD : FieldDescriptor) :
    List (String × TypeRef) :=
  FD.fields.map fun f => (f.fieldName, substTR (genericSubstFor TR) f.fieldType)

/-- Modelled from the spec: `lookupAssociatedTypes` (declared
TypeRefBuilder.h:228-230, body in `TypeRefBuilder.cpp`, not under
`src/`).  Scans every registered associated-type section in registration
order for the first descriptor whose (conforming type, protocol) pair
matches. -/
def lookupAssociatedTypes (s : TypeRefBuilder) (mangledTypeName : String)
    (protocolName : String) : Option AssociatedTypeDescriptor :=
  (s.reflectionInfos.flatMap fun info => info.assocty).find?
    fun d => d.conformingTypeName == mangledTypeName && d.protocolName == protocolName

/-- Modelled from the spec: `getDependentMemberTypeRef` (declared
TypeRefBuilder.h:235-237, body in `TypeRefBuilder.cpp`, not under
`src/`).  Finds the first associated-type descriptor matching the concrete
mangled name and the dependent member's protocol, looks up the member name
inside it, and returns the decoded substitute; every miss is a `none`
lookup failure, never a malformed node. -/
def getDependentMemberTypeRef (s : TypeRefBuilder) (mangledTypeName : String)
    (dependentMember : TypeRef) : Option TypeRef :=
  match dependentMember with
  | .dependentMember member _base (.protocol _ pname) =>
    match lookupAssociatedTypes s mangledTypeName pname with
    | none => none
    | some d =>
      match d.members.find? (fun r => r.name == member) with
      | none => none
      | some r => some r.substitutedType
  | _ => none

/-- Modelled from the spec: `getBuiltinTypeInfo` (declared
TypeRefBuilder.h:247, body in `TypeRefBuilder.cpp`, not under `src/`).
Requires a `Builtin` query; scans every registered builtin section in
registration order for the first descriptor with the matching mangled
name. -/
def getBuiltinTypeInfo (s : TypeRefBuilder) (TR : TypeRef) :
    Option BuiltinTypeDescriptor :=
  match TR with
  | .builtin n =>
    (s.reflectionInfos.flatMap fun info => info.builtin).find?
      fun bd => bd.mangledTypeName == n
  | _ => none

/-- The spec's `Pair` example query: `BoundGeneric("Pair", [Int, String])`. -/
def pairTR : TypeRef :=
  .boundGeneric "Pair" [.builtin "Int", .builtin "String"] none

/-- The spec's `Pair` example field descriptor: fields `first :
GenericTypeParameter(0,0)` and `second : GenericTypeParameter(0,1)`. -/
def pairFD : FieldDescriptor :=
  { mangledTypeName := "Pair"
    fields := [⟨"first", .genericTypeParameter 0 0⟩,
               ⟨"second", .genericTypeParameter 0 1⟩] }

/-- The spec's dependent-member example query node:
`DependentMember("Element", Nominal("Container"), Protocol("", "Sequence"))`. -/
def containerElementDM : TypeRef :=
  .dependentMember "Element" (.nominal "Container" none) (.protocol "" "Sequence")

/-- Demo associated-type descriptor mapping `Container` + `Sequence` +
`Element` to `Int`, used to exercise the dependent-member query. -/
def containerDescriptor : AssociatedTypeDescriptor :=
  { conformingTypeName := "Container"
    protocolName := "Sequence"
    members := [⟨"Element", .builtin "Int"⟩] }

/-- Demo bundle carrying `containerDescriptor`. -/
def containerInfo : ReflectionInfo :=
  { imageName := "libDemo"
    fieldmd := []
    assocty := [containerDescriptor]
    builtin := []
    typeref := []
    reflstr := [] }

/-- Demo field descriptor for the name `Foo` declaring one `Int` field,
standing for bundle A's copy in the collision scenario. -/
def fooDescriptorA : FieldDescriptor :=
  { mangledTypeName := "Foo", fields := [⟨"a", .builtin "Int"⟩] }

/-- Demo field descriptor for the same name `Foo` with a different field
list, standing for bundle B's colliding copy. -/
def fooDescriptorB : FieldDescriptor :=
  { mangledTypeName := "Foo", fields := [⟨"b", .builtin "String"⟩] }

/-- Demo bundle A carrying `fooDescriptorA`. -/
def bundleA : ReflectionInfo :=
  { imageName := "libA"
    fieldmd := [fooDescriptorA]
    assocty := []
    builtin := []
    typeref := []
    reflstr := [] }

/-- Demo bundle B carrying the colliding `fooDescriptorB`. -/
def bundleB : ReflectionInfo :=
  { imageName := "libB"
    fieldmd := [fooDescriptorB]
    assocty := []
    builtin := []
    typeref := []
    reflstr := [] }

/-!
Theorems settling the claims.
-/

/-- C1: for every `BoundGeneric` query and field descriptor,
`getFieldTypeRefs` returns the `(fieldName, resolvedTypeRef)` pairs in
field-declaration order with every `GenericTypeParameter(depth, index)`
replaced through the substitution bound by the argument list, where a
coordinate at depth 0 resolves to the argument at that index in `args`;
in particular the spec's `Pair` example yields
`[("first", Int), ("second", String)]`. -/
theorem getFieldTypeRefs_boundGeneric_substitutes :
    (∀ (n : String) (args : List TypeRef) (parent : Option TypeRef)
        (FD : FieldDescriptor) (j : Nat),
      (getFieldTypeRefs (.boundGeneric n args parent) FD).get? j =
        (FD.fields.get? j).map
          fun f => (f.fieldName, substTR (boundGenericSubst args) f.fieldType)) ∧
    (∀ (args : List TypeRef) (i : Nat),
      substTR (boundGenericSubst args) (.genericTypeParameter 0 i) =
        (args.get? i).getD (.genericTypeParameter 0 i)) ∧
    getFieldTypeRefs pairTR pairFD =
      [("first", .builtin "Int"), ("second", .builtin "String")] := by
  refine ⟨?_, ?_, rfl⟩
  · intro n args parent FD j
    simp [getFieldTypeRefs, genericSubstFor, List.get?_map]
  · intro args i
    simp only [substTR, boundGenericSubst, if_pos rfl]
    cases args.get? i <;> rfl

/-- C2: `createProtocolCompositionType` yields `none` whenever some member
is not a `Protocol` variant, and on an all-`Protocol` list yields the
composition node built from exactly the input member list. -/
theorem createProtocolCompositionType_partiality :
    ∀ ps : List TypeRef,
      ((∃ p ∈ ps, p.isProtocolTypeRef = false) →
        createProtocolCompositionType ps = none) ∧
      ((∀ p ∈ ps, p.isProtocolTypeRef = true) →
        createProtocolCompositionType ps = some (.protocolComposition ps)) := by
  intro ps
  constructor
  · rintro ⟨p, hp, hfalse⟩
    rw [createProtocolCompositionType, if_neg]
    intro hall
    rw [List.all_eq_true] at hall
    rw [hall p hp] at hfalse
    exact absurd hfalse (by simp)
  · intro h
    rw [createProtocolCompositionType, if_pos]
    rw [List.all_eq_true]
    exact fun p hp => h p hp

/-- Witness for C2: one concrete rejected list and one concrete accepted
list. -/
theorem createProtocolCompositionType_partiality_witness :
    createProtocolCompositionType [TypeRef.builtin "Int"] = none ∧
    createProtocolCompositionType [TypeRef.protocol "Swift" "Equatable"] =
      some (.protocolComposition [.protocol "Swift" "Equatable"]) := by
  constructor
  · exact (createProtocolCompositionType_partiality [TypeRef.builtin "Int"]).1
      ⟨.builtin "Int", by simp, rfl⟩
  · exact (createProtocolCompositionType_partiality
        [TypeRef.protocol "Swift" "Equatable"]).2
      (by intro p hp; rw [List.mem_singleton] at hp; subst hp; rfl)

/-- C3: `createDependentMemberType` yields `none` exactly when the third
argument is not a `Protocol` variant, and otherwise builds the
`DependentMember` node. -/
theorem createDependentMemberType_partiality :
    ∀ (member : String) (base protocol : TypeRef),
      (protocol.isProtocolTypeRef = false →
        createDependentMemberType member base protocol = none) ∧
      (protocol.isProtocolTypeRef = true →
        createDependentMemberType member base protocol =
          some (.dependentMember member base protocol)) := by
  intro member base protocol
  constructor <;> intro h <;> simp [createDependentMemberType, h]

/-- Witness for C3: one concrete rejected call and one concrete accepted
call. -/
theorem createDependentMemberType_partiality_witness :
    createDependentMemberType "Element" (.nominal "Container" none)
      (.builtin "Int") = none ∧
    createDependentMemberType "Element" (.nominal "Container" none)
      (.protocol "" "Sequence") =
        some (.dependentMember "Element" (.nominal "Container" none)
          (.protocol "" "Sequence")) :=
  ⟨(createDependentMemberType_partiality "Element" (.nominal "Container" none)
      (.builtin "Int")).1 rfl,
   (createDependentMemberType_partiality "Element" (.nominal "Container" none)
      (.protocol "" "Sequence")).2 rfl⟩

/-- C4: with two bundles A then B registered in that order, both holding a
`FieldDescriptor` for the same mangled name, `getFieldTypeInfo` returns
A's (first-registered) matching descriptor. -/
theorem getFieldTypeInfo_first_registered_wins :
    ∀ (pool : List TypeRef) (A B : ReflectionInfo) (n : String)
      (FDA : FieldDescriptor),
      A.fieldmd.find? (fun fd => fd.mangledTypeName == n) = some FDA →
      (∃ FDB ∈ B.fieldmd, FDB.mangledTypeName = n) →
      getFieldTypeInfo ⟨pool, [A, B]⟩ (.nominal n none) = some FDA := by
  intro pool A B n FDA hA _hB
  simp [getFieldTypeInfo, getMangledName?, List.find?_append, hA]

/-- Witness for C4: two concrete colliding bundles; the query returns the
first-registered descriptor. -/
theorem getFieldTypeInfo_first_registered_wins_witness :
    getFieldTypeInfo ⟨[], [bundleA, bundleB]⟩ (.nominal "Foo" none) =
      some fooDescriptorA :=
  getFieldTypeInfo_first_registered_wins [] bundleA bundleB "Foo"
    fooDescriptorA rfl ⟨fooDescriptorB, by simp [bundleB], rfl⟩

/-- C5: when the first matching associated-type descriptor for
(`Container`, `Sequence`) maps member `Element` to `Int`, resolving the
spec's `DependentMember` node against mangled name `Container` yields
`Builtin("Int")`; when no descriptor matches, or the descriptor lacks the
member name, the query reports a lookup failure (`none`), never a
malformed result. -/
theorem getDependentMemberTypeRef_round_trip :
    ∀ (s : TypeRefBuilder) (d : AssociatedTypeDescriptor),
      (lookupAssociatedTypes s "Container" "Sequence" = some d →
        d.members.find? (fun r => r.name == "Element") =
          some ⟨"Element", .builtin "Int"⟩ →
        getDependentMemberTypeRef s "Container" containerElementDM =
          some (.builtin "Int")) ∧
      (lookupAssociatedTypes s "Container" "Sequence" = none →
        getDependentMemberTypeRef s "Container" containerElementDM = none) ∧
      (lookupAssociatedTypes s "Container" "Sequence" = some d →
        d.members.find? (fun r => r.name == "Element") = none →
        getDependentMemberTypeRef s "Container" containerElementDM = none) := by
  intro s d
  refine ⟨?_, ?_, ?_⟩
  · intro h1 h2
    simp [getDependentMemberTypeRef, containerElementDM, h1, h2]
  · intro h1
    simp [getDependentMemberTypeRef, containerElementDM, h1]
  · intro h1 h2
    simp [getDependentMemberTypeRef, containerElementDM, h1, h2]

/-- Witness for C5: the concrete `Container`/`Sequence`/`Element` → `Int`
descriptor registered in one bundle resolves the spec's node to `Int`. -/
theorem getDependentMemberTypeRef_round_trip_witness :
    getDependentMemberTypeRef ⟨[], [containerInfo]⟩ "Container"
      containerElementDM = some (.builtin "Int") :=
  (getDependentMemberTypeRef_round_trip ⟨[], [containerInfo]⟩
    containerDescriptor).1 rfl rfl

/-- C6: `addReflectionInfo` appends the bundle at the end of the registry,
is total (never fails), leaves the arena pool untouched, and preserves all
previously registered bundles unchanged and in their original order (the
old registry is the prefix of the new one). -/
theorem addReflectionInfo_append_only :
    ∀ (s : TypeRefBuilder) (I : ReflectionInfo),
      (addReflectionInfo s I).reflectionInfos = s.reflectionInfos ++ [I] ∧
      (addReflectionInfo s I).typeRefPool = s.typeRefPool ∧
      (addReflectionInfo s I).reflectionInfos.take s.reflectionInfos.length =
        s.reflectionInfos := by
  intro s I
  refine ⟨rfl, rfl, ?_⟩
  simp [addReflectionInfo, List.take_left]

/-- C7: each singleton placeholder accessor returns the same node identity
on any two calls, and leaves the builder state — in particular the arena
pool — unchanged, so no node is allocated per call. -/
theorem singleton_placeholders_stable :
    ∀ s₁ s₂ : TypeRefBuilder,
      (getUnnamedObjCClassType s₁).2 = (getUnnamedObjCClassType s₂).2 ∧
      (getUnnamedForeignClassType s₁).2 = (getUnnamedForeignClassType s₂).2 ∧
      (getOpaqueType s₁).2 = (getOpaqueType s₂).2 ∧
      (getUnnamedObjCClassType s₁).1 = s₁ ∧
      (getUnnamedForeignClassType s₁).1 = s₁ ∧
      (getOpaqueType s₁).1 = s₁ := by
  intro s₁ s₂
  exact ⟨rfl, rfl, rfl, rfl, rfl, rfl⟩

/-- C8: the three resolver queries are pure functions of the registry
contents and the query arguments — two builder states agreeing on their
registries give identical answers to every query, independently of
anything else in the state (and the queries return no modified state, so
nothing is carried across calls). -/
theorem resolver_queries_pure :
    ∀ (s s' : TypeRefBuilder) (TR dm : TypeRef) (mn : String),
      s.reflectionInfos = s'.reflectionInfos →
      getFieldTypeInfo s TR = getFieldTypeInfo s' TR ∧
      getDependentMemberTypeRef s mn dm = getDependentMemberTypeRef s' mn dm ∧
      getBuiltinTypeInfo s TR = getBuiltinTypeInfo s' TR := by
  intro s s' TR dm mn h
  obtain ⟨p₁, i₁⟩ := s
  obtain ⟨p₂, i₂⟩ := s'
  dsimp at h
  subst h
  exact ⟨rfl, rfl, rfl⟩

/-- Witness for C8: two states with the same registry but different arena
pools answer the three queries identically. -/
theorem resolver_queries_pure_witness :
    getFieldTypeInfo ⟨[.builtin "X"], [containerInfo]⟩ (.nominal "Foo" none) =
      getFieldTypeInfo ⟨[], [containerInfo]⟩ (.nominal "Foo" none) ∧
    getDependentMemberTypeRef ⟨[.builtin "X"], [containerInfo]⟩ "Container"
        containerElementDM =
      getDependentMemberTypeRef ⟨[], [containerInfo]⟩ "Container"
        containerElementDM ∧
    getBuiltinTypeInfo ⟨[.builtin "X"], [containerInfo]⟩ (.nominal "Foo" none) =
      getBuiltinTypeInfo ⟨[], [containerInfo]⟩ (.nominal "Foo" none) :=
  resolver_queries_pure ⟨[.builtin "X"], [containerInfo]⟩ ⟨[], [containerInfo]⟩
    (.nominal "Foo" none) containerElementDM "Container" rfl

/-- C9: `createNominalType` and `createBoundGenericType` dereference their
optional handle unconditionally; under the precondition that the handle is
present the dereference cannot fail and each returns the node built from
the contained mangled name — there is no check and no signalled-absence
path besides the dereference itself. -/
theorem create_nominal_requires_present_handle :
    ∀ (mn : BuiltNominalTypeDecl) (parent : Option TypeRef)
      (args : List TypeRef) (h : mn.isSome = true),
      createNominalType mn parent = some (.nominal (mn.get h) parent) ∧
      createBoundGenericType mn args parent =
        some (.boundGeneric (mn.get h) args parent) := by
  intro mn parent args h
  cases mn with
  | none => exact absurd h (by simp)
  | some n => exact ⟨rfl, rfl⟩

/-- Witness for C9: a present handle is dereferenced successfully by both
constructors. -/
theorem create_nominal_requires_present_handle_witness :
    createNominalType (some "Foo") none = some (.nominal "Foo" none) ∧
    createBoundGenericType (some "Foo") [] none =
      some (.boundGeneric "Foo" [] none) :=
  create_nominal_requires_present_handle (some "Foo") none [] rfl

/-- C10: `createFunctionType` ignores its `inOutArgs` parameter — two
calls agreeing on the parameter list, result type and flags build
structurally equal `Function` nodes whatever their `inOutArgs`. -/
theorem createFunctionType_ignores_inOutArgs :
    ∀ (args : List TypeRef) (io₁ io₂ : List Bool) (result : TypeRef)
      (flags : FunctionTypeFlags),
      createFunctionType args io₁ result flags =
        createFunctionType args io₂ result flags := by
  intro args io₁ io₂ result flags
  rfl

end SwiftReflection
